import Mathlib

/-!
Shallow embedding of the `SectionBox` class of the Online3DViewer repository
(`src/unnamed/part_001`, `export class SectionBox`).

Numbers are modelled as exact rationals (`ℚ`); the claims under study are
order-theoretic and structural, not about floating-point rounding.

The host three.js library objects that the class manipulates (`THREE.Vector3`,
`THREE.Plane`, `THREE.Box3`) are modelled with their documented semantics
(`Box3.isEmpty` is `max < min` on some axis; `Box3.getSize`/`getCenter`
return zero when the box is empty; `Plane.setFromNormalAndCoplanarPoint`
stores the normal and `constant = -(point ⬝ normal)`).

External collaborators (camera, raycaster) are abstracted: every operation
that in the source casts a ray receives the outcome of that raycast as an
explicit argument (the hit handle / hit point / drag-plane intersection),
exactly as the spec's §6 treats them as host-provided utilities.

Calls to `this.viewer.Render ()` draw pixels and have no net effect on any
state tracked here (the overlay render pass saves and restores the renderer's
clip-plane list), so they are omitted from the state transitions.  The draw
entry point itself (`viewer.Render` as a mutable field) is tracked as a
`RenderEntry` value because `HookRender`/`UnhookRender` replace it.
-/

namespace OV3D

/-- Coordinate axes, mirroring the `'x' | 'y' | 'z'` strings in handle
`userData.axis`. -/
inductive Axis where
  | x | y | z
deriving DecidableEq, Repr

/-- Face side, mirroring the `'min' | 'max'` strings in handle
`userData.side`. -/
inductive Side where
  | min | max
deriving DecidableEq, Repr

/-- Face identity, mirroring the `'minX' | ... | 'maxZ'` face-name strings. -/
inductive Face where
  | minX | maxX | minY | maxY | minZ | maxZ
deriving DecidableEq, Repr

/-- The axis encoded in a face name. -/
def Face.axis : Face → Axis
  | .minX | .maxX => .x
  | .minY | .maxY => .y
  | .minZ | .maxZ => .z

/-- The side encoded in a face name. -/
def Face.side : Face → Side
  | .minX | .minY | .minZ => .min
  | .maxX | .maxY | .maxZ => .max

/-- Reassemble a face name from a side and an axis (the result of the source's
string concatenation `'min'/'max' + axis.toUpperCase ()`). -/
def Face.ofParts : Side → Axis → Face
  | .min, .x => .minX
  | .max, .x => .maxX
  | .min, .y => .minY
  | .max, .y => .maxY
  | .min, .z => .minZ
  | .max, .z => .maxZ

/-- The `oppositeKey` computed in `UpdateDrag`: a `min` handle's opposite is
`'max' + axis.toUpperCase ()` and vice versa. -/
def oppositeKey : Side → Axis → Face
  | .min, a => Face.ofParts .max a
  | .max, a => Face.ofParts .min a

/-- `THREE.Vector3`. -/
structure Vector3 where
  x : ℚ
  y : ℚ
  z : ℚ
deriving DecidableEq, Repr

/-- Component access `v[axis]` as used via the JS string index `v[data.axis]`. -/
def Vector3.comp (v : Vector3) : Axis → ℚ
  | .x => v.x
  | .y => v.y
  | .z => v.z

/-- Component update `v[axis] = q`. -/
def Vector3.setComp (v : Vector3) : Axis → ℚ → Vector3
  | .x, q => { v with x := q }
  | .y, q => { v with y := q }
  | .z, q => { v with z := q }

/-- `THREE.Vector3.negate`. -/
def Vector3.neg (v : Vector3) : Vector3 := ⟨-v.x, -v.y, -v.z⟩

/-- `THREE.Vector3.dot`. -/
def Vector3.dot (v w : Vector3) : ℚ := v.x * w.x + v.y * w.y + v.z * w.z

/-- `THREE.Plane`: `normal` and `constant`, with the plane equation
`normal ⬝ p + constant = 0`.  `setComponents (a, b, c, d)` yields
`normal = (a,b,c)`, `constant = d`. -/
structure Plane where
  normal : Vector3
  constant : ℚ
deriving DecidableEq, Repr

/-- The signed value `dot (normal, p) + constant` of a plane at a point. -/
def planeEval (pl : Plane) (p : Vector3) : ℚ :=
  pl.normal.dot p + pl.constant

/-- `THREE.Box3`. -/
structure Box3 where
  min : Vector3
  max : Vector3
deriving DecidableEq, Repr

/-- `THREE.Box3.isEmpty`: true when `max < min` on some axis.  Note that a
box with `min = max` still contains one point and is NOT empty. -/
def Box3.isEmpty (b : Box3) : Prop :=
  b.max.x < b.min.x ∨ b.max.y < b.min.y ∨ b.max.z < b.min.z

instance (b : Box3) : Decidable b.isEmpty := by
  unfold Box3.isEmpty; infer_instance

/-- `THREE.Box3.getSize`: `max - min` componentwise, or zero when empty. -/
def Box3.getSize (b : Box3) : Vector3 :=
  if b.isEmpty then ⟨0, 0, 0⟩
  else ⟨b.max.x - b.min.x, b.max.y - b.min.y, b.max.z - b.min.z⟩

/-- `THREE.Box3.getCenter`: `(min + max) / 2` componentwise, or zero when
empty. -/
def Box3.getCenter (b : Box3) : Vector3 :=
  if b.isEmpty then ⟨0, 0, 0⟩
  else ⟨(b.min.x + b.max.x) / 2, (b.min.y + b.max.y) / 2, (b.min.z + b.max.z) / 2⟩

/-- The six scalar bounds `this.bounds`. -/
structure Bounds where
  minX : ℚ
  maxX : ℚ
  minY : ℚ
  maxY : ℚ
  minZ : ℚ
  maxZ : ℚ
deriving DecidableEq, Repr

/-- String-keyed read `this.bounds[face]`. -/
def Bounds.get (b : Bounds) : Face → ℚ
  | .minX => b.minX
  | .maxX => b.maxX
  | .minY => b.minY
  | .maxY => b.maxY
  | .minZ => b.minZ
  | .maxZ => b.maxZ

/-- String-keyed write `this.bounds[face] = q`. -/
def Bounds.set (b : Bounds) : Face → ℚ → Bounds
  | .minX, q => { b with minX := q }
  | .maxX, q => { b with maxX := q }
  | .minY, q => { b with minY := q }
  | .maxY, q => { b with maxY := q }
  | .minZ, q => { b with minZ := q }
  | .maxZ, q => { b with maxZ := q }

/-- The box `SyncBoxFromBounds` derives from the bounds:
`min = (minX, minY, minZ)`, `max = (maxX, maxY, maxZ)`. -/
def boundsBox (b : Bounds) : Box3 :=
  ⟨⟨b.minX, b.minY, b.minZ⟩, ⟨b.maxX, b.maxY, b.maxZ⟩⟩

/-- Visual settings set in the constructor. -/
def edgeColor : ℕ := 0x0088cc

/-- Default handle color `this.handleColor`. -/
def handleColor : ℕ := 0x0088ff

/-- Hover handle color `this.handleHoverColor`. -/
def handleHoverColor : ℕ := 0xffaa00

/-- Active (dragged) handle color `this.handleActiveColor`. -/
def handleActiveColor : ℕ := 0xff5500

/-- Handle scale factor `this.handleSize = 0.06`. -/
def handleSize : ℚ := 6 / 100

/-- A face-handle mesh: its `userData` (faceName, normal, axis, side) plus the
mutable visual state the source touches (material color, position, uniform
scale, visibility). -/
structure Handle where
  faceName : Face
  normal : Vector3
  axis : Axis
  side : Side
  color : ℕ
  position : Vector3
  scale : ℚ
  visible : Bool
deriving DecidableEq, Repr

/-- The wireframe `edgesHelper` line segments object: the mutable visual state
the source touches. -/
structure Edges where
  position : Vector3
  scale : Vector3
  visible : Bool
deriving DecidableEq, Repr

/-- A value of the viewer's mutable `Render` entry point.  `host` is the
viewer's own function; `hooked r` is the wrapper closure `HookRender`
installs around a previous entry `r`. -/
inductive RenderEntry where
  | host : RenderEntry
  | hooked : RenderEntry → RenderEntry
deriving DecidableEq, Repr

/-- The host renderer's `clippingPlanes` field.  `Enable` assigns either the
section box's own plane array (`aliased`, since `renderer.clippingPlanes =
this.planes` shares the array reference) or a fresh empty array (`empty`). -/
inductive ClipState where
  | aliased : ClipState
  | empty : ClipState
deriving DecidableEq, Repr

/-- The host renderer state the source mutates. -/
structure Renderer where
  localClippingEnabled : Bool
  clippingPlanes : ClipState
deriving DecidableEq, Repr

/-- Replace the first handle whose `faceName` matches `face`, mirroring
`faceHandles.find (h => h.userData.faceName === face)` followed by a mutation
of the found handle (a no-op when no handle matches). -/
def setHandleColor : List Handle → Face → ℕ → List Handle
  | [], _, _ => []
  | h :: t, face, c =>
    if h.faceName = face then { h with color := c } :: t
    else h :: setHandleColor t face c

/-- The face definition table in `CreateFaceHandles`. -/
def faceDefs : List (Face × Vector3 × Axis × Side) :=
  [ (.minX, ⟨-1, 0, 0⟩, .x, .min), (.maxX, ⟨1, 0, 0⟩, .x, .max),
    (.minY, ⟨0, -1, 0⟩, .y, .min), (.maxY, ⟨0, 1, 0⟩, .y, .max),
    (.minZ, ⟨0, 0, -1⟩, .z, .min), (.maxZ, ⟨0, 0, 1⟩, .z, .max) ]

/-- The six handle meshes `CreateFaceHandles` builds: default material color,
fresh mesh transform, visible. -/
def defaultHandles : List Handle :=
  faceDefs.map (fun d =>
    { faceName := d.1, normal := d.2.1, axis := d.2.2.1, side := d.2.2.2,
      color := handleColor, position := ⟨0, 0, 0⟩, scale := 1, visible := true })

/-- The whole mutable state of a `SectionBox` instance together with the
pieces of the host viewer it owns (renderer fields and the draw entry
point). -/
structure SectionBox where
  enabled : Bool
  bounds : Bounds
  box : Box3
  planes : List Plane
  edgesHelper : Option Edges
  faceHandles : List Handle
  isDragging : Bool
  activeFace : Option Face
  dragStartPoint : Option Vector3
  dragPlane : Option Plane
  dragStartBound : Option ℚ
  renderer : Renderer
  viewerRender : RenderEntry
  originalRender : Option RenderEntry
deriving DecidableEq, Repr

/-- `GetSectionBox`'s returned record
`{ enabled, minX, maxX, minY, maxY, minZ, maxZ }`. -/
structure SectionBoxInfo where
  enabled : Bool
  minX : ℚ
  maxX : ℚ
  minY : ℚ
  maxY : ℚ
  minZ : ℚ
  maxZ : ℚ
deriving DecidableEq, Repr

/-- `GetSectionBox ()`. -/
def SectionBox.GetSectionBox (s : SectionBox) : SectionBoxInfo :=
  ⟨s.enabled, s.bounds.minX, s.bounds.maxX, s.bounds.minY, s.bounds.maxY,
   s.bounds.minZ, s.bounds.maxZ⟩

/-- `SyncBoxFromBounds ()`: `box.min.set (minX, minY, minZ)`;
`box.max.set (maxX, maxY, maxZ)`. -/
def SectionBox.SyncBoxFromBounds (s : SectionBox) : SectionBox :=
  { s with box := boundsBox s.bounds }

/-- `SyncBoundsFromBox ()`. -/
def SectionBox.SyncBoundsFromBox (s : SectionBox) : SectionBox :=
  { s with bounds := ⟨s.box.min.x, s.box.max.x, s.box.min.y, s.box.max.y,
                      s.box.min.z, s.box.max.z⟩ }

/-- The six planes `UpdatePlanes` writes via `setComponents`, in array
order. -/
def derivePlanes (box : Box3) : List Plane :=
  [ ⟨⟨1, 0, 0⟩, -box.min.x⟩, ⟨⟨-1, 0, 0⟩, box.max.x⟩,
    ⟨⟨0, 1, 0⟩, -box.min.y⟩, ⟨⟨0, -1, 0⟩, box.max.y⟩,
    ⟨⟨0, 0, 1⟩, -box.min.z⟩, ⟨⟨0, 0, -1⟩, box.max.z⟩ ]

/-- `UpdatePlanes ()`: early-returns while disabled, otherwise rewrites the
six planes from the current box. -/
def SectionBox.UpdatePlanes (s : SectionBox) : SectionBox :=
  if s.enabled = false then s
  else { s with planes := derivePlanes s.box }

/-- `UpdateVisuals ()`: recomputes the wireframe transform and the handle
positions/scales from the current box.  (The `overlayScene === null` guard in
the source is dead — the scene is created in the constructor and never
nulled.)  The size floor of `0.001` per axis and the handle radius floor of
`0.1` are applied exactly as in the source; handle positions use the raw
`box.min` / `box.max` values, not the floored size. -/
def SectionBox.UpdateVisuals (s : SectionBox) : SectionBox :=
  let center := s.box.getCenter
  let size0 := s.box.getSize
  let size : Vector3 :=
    ⟨if size0.x < 1 / 1000 then 1 / 1000 else size0.x,
     if size0.y < 1 / 1000 then 1 / 1000 else size0.y,
     if size0.z < 1 / 1000 then 1 / 1000 else size0.z⟩
  let edges' := s.edgesHelper.map (fun e => { e with position := center, scale := size })
  let handleRadius := min (min size.x size.y) size.z * handleSize
  let actualRadius := max handleRadius (1 / 10)
  let handles' := s.faceHandles.map (fun h =>
    let pos :=
      match h.side with
      | Side.min => center.setComp h.axis (s.box.min.comp h.axis)
      | Side.max => center.setComp h.axis (s.box.max.comp h.axis)
    { h with position := pos, scale := actualRadius })
  { s with edgesHelper := edges', faceHandles := handles' }

/-- `ShowVisuals (visible)`: sets `visible` on every object in the overlay
scene (the wireframe edges object, when created, and every face handle). -/
def SectionBox.ShowVisuals (s : SectionBox) (visible : Bool) : SectionBox :=
  { s with edgesHelper := s.edgesHelper.map (fun e => { e with visible := visible }),
           faceHandles := s.faceHandles.map (fun h => { h with visible := visible }) }

/-- `CreateVisuals ()`: early-returns when the edges helper already exists;
otherwise creates the wireframe object (fresh transform, visible) and the six
face handles, then runs `UpdateVisuals`. -/
def SectionBox.CreateVisuals (s : SectionBox) : SectionBox :=
  if s.edgesHelper.isSome then s
  else
    ({ s with edgesHelper := some ⟨⟨0, 0, 0⟩, ⟨1, 1, 1⟩, true⟩,
              faceHandles := s.faceHandles ++ defaultHandles }).UpdateVisuals

/-- `HookRender ()`: a no-op when already hooked; otherwise saves the current
draw entry point and installs the overlay-pass wrapper around it. -/
def SectionBox.HookRender (s : SectionBox) : SectionBox :=
  match s.originalRender with
  | some _ => s
  | none => { s with originalRender := some s.viewerRender,
                     viewerRender := RenderEntry.hooked s.viewerRender }

/-- `UnhookRender ()`: restores the saved draw entry point, if any. -/
def SectionBox.UnhookRender (s : SectionBox) : SectionBox :=
  match s.originalRender with
  | some r => { s with viewerRender := r, originalRender := none }
  | none => s

/-- `Enable (isEnabled)`. -/
def SectionBox.Enable (s : SectionBox) (isEnabled : Bool) : SectionBox :=
  let s1 : SectionBox := { s with enabled := isEnabled }
  if isEnabled then
    let s2 : SectionBox :=
      { s1 with renderer := { localClippingEnabled := true,
                              clippingPlanes := ClipState.aliased } }
    (((s2.CreateVisuals).ShowVisuals true).UpdatePlanes).HookRender
  else
    let s2 : SectionBox :=
      { s1 with renderer := { s1.renderer with clippingPlanes := ClipState.empty } }
    let s3 := s2.ShowVisuals false
    ({ s3 with isDragging := false, activeFace := none }).UnhookRender

/-- `EnableSectionBox (enabled)`: sets the flag and delegates to `Enable`. -/
def SectionBox.EnableSectionBox (s : SectionBox) (enabled : Bool) : SectionBox :=
  ({ s with enabled := enabled }).Enable enabled

/-- `SetSectionBox (bounds)`: overwrites the six scalars, then resyncs the
box, visuals and planes. -/
def SectionBox.SetSectionBox (s : SectionBox) (b : Bounds) : SectionBox :=
  ((({ s with bounds := b }).SyncBoxFromBounds).UpdateVisuals).UpdatePlanes

/-- `FitToBox (boundingBox, marginFactor)`: a silent no-op when the argument
is null (`none`) or `isEmpty`; otherwise expands the source box by
`size * marginFactor` per axis and proceeds as `SetSectionBox`. -/
def SectionBox.FitToBox (s : SectionBox) (boundingBox : Option Box3)
    (marginFactor : ℚ) : SectionBox :=
  match boundingBox with
  | none => s
  | some bb =>
    if bb.isEmpty then s
    else
      let size := bb.getSize
      let margin : Vector3 :=
        ⟨size.x * marginFactor, size.y * marginFactor, size.z * marginFactor⟩
      let b : Bounds :=
        ⟨bb.min.x - margin.x, bb.max.x + margin.x,
         bb.min.y - margin.y, bb.max.y + margin.y,
         bb.min.z - margin.z, bb.max.z + margin.z⟩
      ((({ s with bounds := b }).SyncBoxFromBounds).UpdateVisuals).UpdatePlanes

/-- `SetBox (box)` (legacy API): no-op on null/empty input, otherwise copies
the box, resyncs bounds from it, and updates visuals and planes. -/
def SectionBox.SetBox (s : SectionBox) (box : Option Box3) : SectionBox :=
  match box with
  | none => s
  | some bb =>
    if bb.isEmpty then s
    else ((({ s with box := bb }).SyncBoundsFromBox).UpdateVisuals).UpdatePlanes

/-- `StartDrag (handle, hitPoint)`: records the drag session — active face,
start point, viewer-facing drag plane (normal = negated camera direction,
through the hit point), start bound value — and paints the grabbed handle
with the active color.  `cameraDir` is the host camera's world direction. -/
def SectionBox.StartDrag (s : SectionBox) (face : Face) (hitPoint : Vector3)
    (cameraDir : Vector3) : SectionBox :=
  let n := cameraDir.neg
  { s with isDragging := true,
           activeFace := some face,
           dragStartPoint := some hitPoint,
           dragPlane := some ⟨n, -(hitPoint.dot n)⟩,
           dragStartBound := some (s.bounds.get face),
           faceHandles := setHandleColor s.faceHandles face handleActiveColor }

/-- `UpdateDrag (mouseCoords)`.  The raycast against the drag plane is host
functionality, so the intersection outcome is passed in as `hit` (`none` =
the ray misses the plane).  On a hit, the dragged bound is moved by the
delta of the intersection along the handle's axis and clamped against the
opposite bound on the same axis with a `0.01` margin, then box, visuals and
planes are resynced.  (The wildcard row for a null `dragStartPoint` /
`dragStartBound` is unreachable while `isDragging` holds: `StartDrag` sets
all the session fields together.) -/
def SectionBox.UpdateDrag (s : SectionBox) (hit : Option Vector3) : SectionBox :=
  if s.isDragging = false ∨ s.activeFace = none then s
  else
    match hit with
    | none => s
    | some intersection =>
      match s.activeFace, s.dragStartPoint, s.dragStartBound with
      | some face, some startPoint, some startBound =>
        match s.faceHandles.find? (fun hh => decide (hh.faceName = face)) with
        | none => s
        | some handle =>
          let axis := handle.axis
          let delta := intersection.comp axis - startPoint.comp axis
          let raw := startBound + delta
          let opposite := oppositeKey handle.side axis
          let newValue :=
            match handle.side with
            | Side.min => min raw (s.bounds.get opposite - 1 / 100)
            | Side.max => max raw (s.bounds.get opposite + 1 / 100)
          ((({ s with bounds := s.bounds.set face newValue
             }).SyncBoxFromBounds).UpdateVisuals).UpdatePlanes
      | _, _, _ => s

/-- `EndDrag ()`: resets the active handle's color to the default, then
clears all five drag-session fields. -/
def SectionBox.EndDrag (s : SectionBox) : SectionBox :=
  let s1 :=
    match s.activeFace with
    | some face => { s with faceHandles := setHandleColor s.faceHandles face handleColor }
    | none => s
  { s1 with isDragging := false, activeFace := none, dragStartPoint := none,
            dragPlane := none, dragStartBound := none }

/-- `OnMouseDown (mouseCoords, button)`.  The raycast against the handle set
is host functionality; `hit` is its nearest-hit outcome (face identity of the
hit handle and world hit point), and `cameraDir` the camera direction used to
build the drag plane.  Returns the new state and the handled flag. -/
def SectionBox.OnMouseDown (s : SectionBox) (cameraDir : Vector3)
    (hit : Option (Face × Vector3)) (button : ℕ) : SectionBox × Bool :=
  if s.enabled = false ∨ s.faceHandles.length = 0 ∨ button ≠ 1 then (s, false)
  else
    match hit with
    | some fp => (s.StartDrag fp.1 fp.2 cameraDir, true)
    | none => (s, false)

/-- `OnMouseMove (mouseCoords)`.  `dragHit` is the ray/drag-plane
intersection outcome used while dragging; `hoverHit` is the nearest handle
hit used for hover highlighting otherwise.  The hover branch repaints every
handle with the default color, paints the hovered one (if any) with the
hover color, and reports the event as not consumed. -/
def SectionBox.OnMouseMove (s : SectionBox) (dragHit : Option Vector3)
    (hoverHit : Option Face) : SectionBox × Bool :=
  if s.enabled = false ∨ s.faceHandles.length = 0 then (s, false)
  else if s.isDragging then (s.UpdateDrag dragHit, true)
  else
    let s1 : SectionBox :=
      { s with faceHandles := s.faceHandles.map (fun h => { h with color := handleColor }) }
    match hoverHit with
    | some face =>
      ({ s1 with faceHandles := setHandleColor s1.faceHandles face handleHoverColor }, false)
    | none => (s1, false)

/-- `OnMouseUp ()`: ends the drag when one is active, otherwise reports the
event as not consumed. -/
def SectionBox.OnMouseUp (s : SectionBox) : SectionBox × Bool :=
  if s.isDragging then (s.EndDrag, true) else (s, false)

/-- `Dispose ()`: unhooks the render wrapper, then releases the overlay
objects. -/
def SectionBox.Dispose (s : SectionBox) : SectionBox :=
  let s1 := s.UnhookRender
  { s1 with edgesHelper := none, faceHandles := [] }

/-- The clip-plane list the host renderer effectively applies:
`renderer.clippingPlanes` is either the section box's own (shared) plane
array or a fresh empty array. -/
def effectiveClipPlanes (s : SectionBox) : List Plane :=
  match s.renderer.clippingPlanes with
  | ClipState.aliased => s.planes
  | ClipState.empty => []

/-- A point strictly inside a box, componentwise. -/
def strictlyInside (b : Box3) (p : Vector3) : Prop :=
  b.min.x < p.x ∧ p.x < b.max.x ∧ b.min.y < p.y ∧ p.y < b.max.y ∧
  b.min.z < p.z ∧ p.z < b.max.z

/-! ### Frame lemmas: which fields each internal operation leaves alone -/

@[simp] lemma SyncBoxFromBounds_bounds (s : SectionBox) :
    (s.SyncBoxFromBounds).bounds = s.bounds := rfl

@[simp] lemma SyncBoxFromBounds_enabled (s : SectionBox) :
    (s.SyncBoxFromBounds).enabled = s.enabled := rfl

@[simp] lemma SyncBoxFromBounds_box (s : SectionBox) :
    (s.SyncBoxFromBounds).box = boundsBox s.bounds := rfl

@[simp] lemma SyncBoxFromBounds_isDragging (s : SectionBox) :
    (s.SyncBoxFromBounds).isDragging = s.isDragging := rfl

@[simp] lemma SyncBoxFromBounds_activeFace (s : SectionBox) :
    (s.SyncBoxFromBounds).activeFace = s.activeFace := rfl

@[simp] lemma SyncBoxFromBounds_dragStartPoint (s : SectionBox) :
    (s.SyncBoxFromBounds).dragStartPoint = s.dragStartPoint := rfl

@[simp] lemma SyncBoxFromBounds_dragPlane (s : SectionBox) :
    (s.SyncBoxFromBounds).dragPlane = s.dragPlane := rfl

@[simp] lemma SyncBoxFromBounds_dragStartBound (s : SectionBox) :
    (s.SyncBoxFromBounds).dragStartBound = s.dragStartBound := rfl

@[simp] lemma SyncBoxFromBounds_renderer (s : SectionBox) :
    (s.SyncBoxFromBounds).renderer = s.renderer := rfl

@[simp] lemma SyncBoxFromBounds_viewerRender (s : SectionBox) :
    (s.SyncBoxFromBounds).viewerRender = s.viewerRender := rfl

@[simp] lemma SyncBoxFromBounds_originalRender (s : SectionBox) :
    (s.SyncBoxFromBounds).originalRender = s.originalRender := rfl

@[simp] lemma SyncBoundsFromBox_enabled (s : SectionBox) :
    (s.SyncBoundsFromBox).enabled = s.enabled := rfl

@[simp] lemma SyncBoundsFromBox_box (s : SectionBox) :
    (s.SyncBoundsFromBox).box = s.box := rfl

@[simp] lemma UpdateVisuals_bounds (s : SectionBox) :
    (s.UpdateVisuals).bounds = s.bounds := rfl

@[simp] lemma UpdateVisuals_enabled (s : SectionBox) :
    (s.UpdateVisuals).enabled = s.enabled := rfl

@[simp] lemma UpdateVisuals_box (s : SectionBox) :
    (s.UpdateVisuals).box = s.box := rfl

@[simp] lemma UpdateVisuals_planes (s : SectionBox) :
    (s.UpdateVisuals).planes = s.planes := rfl

@[simp] lemma UpdateVisuals_isDragging (s : SectionBox) :
    (s.UpdateVisuals).isDragging = s.isDragging := rfl

@[simp] lemma UpdateVisuals_activeFace (s : SectionBox) :
    (s.UpdateVisuals).activeFace = s.activeFace := rfl

@[simp] lemma UpdateVisuals_dragStartPoint (s : SectionBox) :
    (s.UpdateVisuals).dragStartPoint = s.dragStartPoint := rfl

@[simp] lemma UpdateVisuals_dragPlane (s : SectionBox) :
    (s.UpdateVisuals).dragPlane = s.dragPlane := rfl

@[simp] lemma UpdateVisuals_dragStartBound (s : SectionBox) :
    (s.UpdateVisuals).dragStartBound = s.dragStartBound := rfl

@[simp] lemma UpdateVisuals_renderer (s : SectionBox) :
    (s.UpdateVisuals).renderer = s.renderer := rfl

@[simp] lemma UpdateVisuals_viewerRender (s : SectionBox) :
    (s.UpdateVisuals).viewerRender = s.viewerRender := rfl

@[simp] lemma UpdateVisuals_originalRender (s : SectionBox) :
    (s.UpdateVisuals).originalRender = s.originalRender := rfl

@[simp] lemma UpdatePlanes_bounds (s : SectionBox) :
    (s.UpdatePlanes).bounds = s.bounds := by
  unfold SectionBox.UpdatePlanes; split <;> rfl

@[simp] lemma UpdatePlanes_enabled (s : SectionBox) :
    (s.UpdatePlanes).enabled = s.enabled := by
  unfold SectionBox.UpdatePlanes; split <;> rfl

@[simp] lemma UpdatePlanes_box (s : SectionBox) :
    (s.UpdatePlanes).box = s.box := by
  unfold SectionBox.UpdatePlanes; split <;> rfl

@[simp] lemma UpdatePlanes_isDragging (s : SectionBox) :
    (s.UpdatePlanes).isDragging = s.isDragging := by
  unfold SectionBox.UpdatePlanes; split <;> rfl

@[simp] lemma UpdatePlanes_activeFace (s : SectionBox) :
    (s.UpdatePlanes).activeFace = s.activeFace := by
  unfold SectionBox.UpdatePlanes; split <;> rfl

@[simp] lemma UpdatePlanes_dragStartPoint (s : SectionBox) :
    (s.UpdatePlanes).dragStartPoint = s.dragStartPoint := by
  unfold SectionBox.UpdatePlanes; split <;> rfl

@[simp] lemma UpdatePlanes_dragPlane (s : SectionBox) :
    (s.UpdatePlanes).dragPlane = s.dragPlane := by
  unfold SectionBox.UpdatePlanes; split <;> rfl

@[simp] lemma UpdatePlanes_dragStartBound (s : SectionBox) :
    (s.UpdatePlanes).dragStartBound = s.dragStartBound := by
  unfold SectionBox.UpdatePlanes; split <;> rfl

@[simp] lemma UpdatePlanes_renderer (s : SectionBox) :
    (s.UpdatePlanes).renderer = s.renderer := by
  unfold SectionBox.UpdatePlanes; split <;> rfl

@[simp] lemma UpdatePlanes_viewerRender (s : SectionBox) :
    (s.UpdatePlanes).viewerRender = s.viewerRender := by
  unfold SectionBox.UpdatePlanes; split <;> rfl

@[simp] lemma UpdatePlanes_originalRender (s : SectionBox) :
    (s.UpdatePlanes).originalRender = s.originalRender := by
  unfold SectionBox.UpdatePlanes; split <;> rfl

@[simp] lemma UpdatePlanes_edgesHelper (s : SectionBox) :
    (s.UpdatePlanes).edgesHelper = s.edgesHelper := by
  unfold SectionBox.UpdatePlanes; split <;> rfl

@[simp] lemma UpdatePlanes_faceHandles (s : SectionBox) :
    (s.UpdatePlanes).faceHandles = s.faceHandles := by
  unfold SectionBox.UpdatePlanes; split <;> rfl

@[simp] lemma ShowVisuals_bounds (s : SectionBox) (v : Bool) :
    (s.ShowVisuals v).bounds = s.bounds := rfl

@[simp] lemma ShowVisuals_enabled (s : SectionBox) (v : Bool) :
    (s.ShowVisuals v).enabled = s.enabled := rfl

@[simp] lemma ShowVisuals_planes (s : SectionBox) (v : Bool) :
    (s.ShowVisuals v).planes = s.planes := rfl

@[simp] lemma ShowVisuals_renderer (s : SectionBox) (v : Bool) :
    (s.ShowVisuals v).renderer = s.renderer := rfl

@[simp] lemma ShowVisuals_viewerRender (s : SectionBox) (v : Bool) :
    (s.ShowVisuals v).viewerRender = s.viewerRender := rfl

@[simp] lemma ShowVisuals_originalRender (s : SectionBox) (v : Bool) :
    (s.ShowVisuals v).originalRender = s.originalRender := rfl

@[simp] lemma ShowVisuals_isDragging (s : SectionBox) (v : Bool) :
    (s.ShowVisuals v).isDragging = s.isDragging := rfl

@[simp] lemma ShowVisuals_activeFace (s : SectionBox) (v : Bool) :
    (s.ShowVisuals v).activeFace = s.activeFace := rfl

@[simp] lemma ShowVisuals_dragStartPoint (s : SectionBox) (v : Bool) :
    (s.ShowVisuals v).dragStartPoint = s.dragStartPoint := rfl

@[simp] lemma ShowVisuals_dragPlane (s : SectionBox) (v : Bool) :
    (s.ShowVisuals v).dragPlane = s.dragPlane := rfl

@[simp] lemma ShowVisuals_dragStartBound (s : SectionBox) (v : Bool) :
    (s.ShowVisuals v).dragStartBound = s.dragStartBound := rfl

@[simp] lemma ShowVisuals_faceHandles (s : SectionBox) (v : Bool) :
    (s.ShowVisuals v).faceHandles
      = s.faceHandles.map (fun h => { h with visible := v }) := rfl

@[simp] lemma ShowVisuals_edgesHelper (s : SectionBox) (v : Bool) :
    (s.ShowVisuals v).edgesHelper
      = s.edgesHelper.map (fun e => { e with visible := v }) := rfl

@[simp] lemma CreateVisuals_bounds (s : SectionBox) :
    (s.CreateVisuals).bounds = s.bounds := by
  unfold SectionBox.CreateVisuals; split <;> rfl

@[simp] lemma CreateVisuals_enabled (s : SectionBox) :
    (s.CreateVisuals).enabled = s.enabled := by
  unfold SectionBox.CreateVisuals; split <;> rfl

@[simp] lemma CreateVisuals_planes (s : SectionBox) :
    (s.CreateVisuals).planes = s.planes := by
  unfold SectionBox.CreateVisuals; split <;> rfl

@[simp] lemma CreateVisuals_box (s : SectionBox) :
    (s.CreateVisuals).box = s.box := by
  unfold SectionBox.CreateVisuals; split <;> rfl

@[simp] lemma CreateVisuals_renderer (s : SectionBox) :
    (s.CreateVisuals).renderer = s.renderer := by
  unfold SectionBox.CreateVisuals; split <;> rfl

@[simp] lemma CreateVisuals_viewerRender (s : SectionBox) :
    (s.CreateVisuals).viewerRender = s.viewerRender := by
  unfold SectionBox.CreateVisuals; split <;> rfl

@[simp] lemma CreateVisuals_originalRender (s : SectionBox) :
    (s.CreateVisuals).originalRender = s.originalRender := by
  unfold SectionBox.CreateVisuals; split <;> rfl

@[simp] lemma CreateVisuals_isDragging (s : SectionBox) :
    (s.CreateVisuals).isDragging = s.isDragging := by
  unfold SectionBox.CreateVisuals; split <;> rfl

@[simp] lemma CreateVisuals_activeFace (s : SectionBox) :
    (s.CreateVisuals).activeFace = s.activeFace := by
  unfold SectionBox.CreateVisuals; split <;> rfl

lemma CreateVisuals_edgesHelper_isSome (s : SectionBox) :
    ((s.CreateVisuals).edgesHelper).isSome = true := by
  unfold SectionBox.CreateVisuals
  split
  · next h => exact h
  · rfl

@[simp] lemma HookRender_bounds (s : SectionBox) :
    (s.HookRender).bounds = s.bounds := by
  unfold SectionBox.HookRender; cases s.originalRender <;> rfl

@[simp] lemma HookRender_enabled (s : SectionBox) :
    (s.HookRender).enabled = s.enabled := by
  unfold SectionBox.HookRender; cases s.originalRender <;> rfl

@[simp] lemma HookRender_faceHandles (s : SectionBox) :
    (s.HookRender).faceHandles = s.faceHandles := by
  unfold SectionBox.HookRender; cases s.originalRender <;> rfl

@[simp] lemma HookRender_edgesHelper (s : SectionBox) :
    (s.HookRender).edgesHelper = s.edgesHelper := by
  unfold SectionBox.HookRender; cases s.originalRender <;> rfl

@[simp] lemma HookRender_renderer (s : SectionBox) :
    (s.HookRender).renderer = s.renderer := by
  unfold SectionBox.HookRender; cases s.originalRender <;> rfl

@[simp] lemma HookRender_planes (s : SectionBox) :
    (s.HookRender).planes = s.planes := by
  unfold SectionBox.HookRender; cases s.originalRender <;> rfl

@[simp] lemma UnhookRender_bounds (s : SectionBox) :
    (s.UnhookRender).bounds = s.bounds := by
  unfold SectionBox.UnhookRender; cases s.originalRender <;> rfl

@[simp] lemma UnhookRender_enabled (s : SectionBox) :
    (s.UnhookRender).enabled = s.enabled := by
  unfold SectionBox.UnhookRender; cases s.originalRender <;> rfl

@[simp] lemma UnhookRender_faceHandles (s : SectionBox) :
    (s.UnhookRender).faceHandles = s.faceHandles := by
  unfold SectionBox.UnhookRender; cases s.originalRender <;> rfl

@[simp] lemma UnhookRender_edgesHelper (s : SectionBox) :
    (s.UnhookRender).edgesHelper = s.edgesHelper := by
  unfold SectionBox.UnhookRender; cases s.originalRender <;> rfl

@[simp] lemma UnhookRender_renderer (s : SectionBox) :
    (s.UnhookRender).renderer = s.renderer := by
  unfold SectionBox.UnhookRender; cases s.originalRender <;> rfl

@[simp] lemma UnhookRender_planes (s : SectionBox) :
    (s.UnhookRender).planes = s.planes := by
  unfold SectionBox.UnhookRender; cases s.originalRender <;> rfl

@[simp] lemma UnhookRender_isDragging (s : SectionBox) :
    (s.UnhookRender).isDragging = s.isDragging := by
  unfold SectionBox.UnhookRender; cases s.originalRender <;> rfl

@[simp] lemma UnhookRender_activeFace (s : SectionBox) :
    (s.UnhookRender).activeFace = s.activeFace := by
  unfold SectionBox.UnhookRender; cases s.originalRender <;> rfl

@[simp] lemma UnhookRender_dragStartPoint (s : SectionBox) :
    (s.UnhookRender).dragStartPoint = s.dragStartPoint := by
  unfold SectionBox.UnhookRender; cases s.originalRender <;> rfl

@[simp] lemma UnhookRender_dragPlane (s : SectionBox) :
    (s.UnhookRender).dragPlane = s.dragPlane := by
  unfold SectionBox.UnhookRender; cases s.originalRender <;> rfl

@[simp] lemma UnhookRender_dragStartBound (s : SectionBox) :
    (s.UnhookRender).dragStartBound = s.dragStartBound := by
  unfold SectionBox.UnhookRender; cases s.originalRender <;> rfl

/-! ### Small helper lemmas -/

@[simp] lemma Bounds.get_set_self (b : Bounds) (f : Face) (v : ℚ) :
    (b.set f v).get f = v := by
  cases f <;> rfl

lemma Bounds.get_set_ne (b : Bounds) (f g : Face) (v : ℚ) (h : g ≠ f) :
    (b.set f v).get g = b.get g := by
  cases f <;> cases g <;> first | exact (h rfl).elim | rfl

lemma clamp_min_le (a c : ℚ) : min a (c - 1 / 100) + 1 / 100 ≤ c := by
  have := min_le_right a (c - 1 / 100); linarith

lemma clamp_max_ge (a c : ℚ) : c + 1 / 100 ≤ max a (c + 1 / 100) := by
  have := le_max_right a (c + 1 / 100); linarith

lemma find?_setHandleColor (l : List Handle) (face : Face) (c : ℕ) (h : Handle)
    (hf : l.find? (fun hh => decide (hh.faceName = face)) = some h) :
    (setHandleColor l face c).find? (fun hh => decide (hh.faceName = face))
      = some { h with color := c } := by
  induction l with
  | nil => simp [List.find?] at hf
  | cons a t ih =>
    by_cases ha : a.faceName = face
    · unfold setHandleColor
      rw [if_pos ha]
      simp [List.find?, ha] at hf ⊢
      subst hf
      simp [ha]
    · unfold setHandleColor
      rw [if_neg ha]
      simp [List.find?, ha] at hf ⊢
      exact ih hf

lemma map_color_map_visible (l : List Handle) (v : Bool) :
    ((l.map (fun h => { h with visible := v })).map Handle.color)
      = l.map Handle.color := by
  induction l with
  | nil => rfl
  | cons a t ih => simp_all

/-! ### Sample states used to instantiate the theorems -/

/-- A freshly constructed, never-enabled section box (unit bounds, six default
planes, no visuals yet, idle interaction state, host renderer untouched).
Its (empty-by-default) `THREE.Box3` is represented already synced to the unit
bounds; no claim below depends on the pre-sync box value. -/
def sampleState : SectionBox :=
  { enabled := false, bounds := ⟨0, 1, 0, 1, 0, 1⟩,
    box := boundsBox ⟨0, 1, 0, 1, 0, 1⟩,
    planes := List.replicate 6 ⟨⟨1, 0, 0⟩, 0⟩,
    edgesHelper := none, faceHandles := [],
    isDragging := false, activeFace := none, dragStartPoint := none,
    dragPlane := none, dragStartBound := none,
    renderer := ⟨false, ClipState.empty⟩,
    viewerRender := RenderEntry.host, originalRender := none }

/-- An enabled section box over the unit bounds with visuals created and the
render hook installed. -/
def sampleEnabled : SectionBox :=
  { enabled := true, bounds := ⟨0, 1, 0, 1, 0, 1⟩,
    box := boundsBox ⟨0, 1, 0, 1, 0, 1⟩,
    planes := derivePlanes (boundsBox ⟨0, 1, 0, 1, 0, 1⟩),
    edgesHelper := some ⟨⟨1 / 2, 1 / 2, 1 / 2⟩, ⟨1, 1, 1⟩, true⟩,
    faceHandles := defaultHandles,
    isDragging := false, activeFace := none, dragStartPoint := none,
    dragPlane := none, dragStartBound := none,
    renderer := ⟨true, ClipState.aliased⟩,
    viewerRender := RenderEntry.hooked RenderEntry.host,
    originalRender := some RenderEntry.host }

/-- A handle mesh with explicit identity and color, centered transform. -/
def mkSampleHandle (f : Face) (n : Vector3) (a : Axis) (sd : Side) (c : ℕ) : Handle :=
  { faceName := f, normal := n, axis := a, side := sd, color := c,
    position := ⟨0, 0, 0⟩, scale := 1 / 10, visible := true }

/-- The six handles of a session in which the `minX` handle has been grabbed
(it carries the active color). -/
def sampleDragHandles : List Handle :=
  [ mkSampleHandle .minX ⟨-1, 0, 0⟩ .x .min handleActiveColor,
    mkSampleHandle .maxX ⟨1, 0, 0⟩ .x .max handleColor,
    mkSampleHandle .minY ⟨0, -1, 0⟩ .y .min handleColor,
    mkSampleHandle .maxY ⟨0, 1, 0⟩ .y .max handleColor,
    mkSampleHandle .minZ ⟨0, 0, -1⟩ .z .min handleColor,
    mkSampleHandle .maxZ ⟨0, 0, 1⟩ .z .max handleColor ]

/-- An enabled section box in the middle of a drag of the `minX` handle:
grabbed at `(0, 1/2, 1/2)` with the camera looking along `-z`, so the drag
plane faces the viewer (`normal = (0,0,1)` through the hit point). -/
def sampleDrag : SectionBox :=
  { sampleEnabled with
    faceHandles := sampleDragHandles,
    isDragging := true,
    activeFace := some Face.minX,
    dragStartPoint := some ⟨0, 1 / 2, 1 / 2⟩,
    dragPlane := some ⟨⟨0, 0, 1⟩, -(1 / 2)⟩,
    dragStartBound := some 0 }

/-! ### Computation of `UpdateDrag` in the successful case -/

/-- The clamped bound value `UpdateDrag` computes for the dragged face: the
start bound moved by the intersection delta along the handle's axis, clamped
against the opposite bound on the same axis with a `0.01` margin. -/
def clampedValue (b : Bounds) (handle : Handle)
    (startPoint intersection : Vector3) (startBound : ℚ) : ℚ :=
  match handle.side with
  | Side.min =>
    min (startBound + (intersection.comp handle.axis - startPoint.comp handle.axis))
      (b.get (oppositeKey handle.side handle.axis) - 1 / 100)
  | Side.max =>
    max (startBound + (intersection.comp handle.axis - startPoint.comp handle.axis))
      (b.get (oppositeKey handle.side handle.axis) + 1 / 100)

/-- Unfolding of `UpdateDrag` when a drag is active and the ray hits the drag
plane: the bound keyed by the active face is set to the clamped value, then
box, visuals and planes are resynced. -/
lemma UpdateDrag_eq (s : SectionBox) (face : Face) (handle : Handle)
    (startPoint intersection : Vector3) (startBound : ℚ)
    (hdrag : s.isDragging = true)
    (hface : s.activeFace = some face)
    (hsp : s.dragStartPoint = some startPoint)
    (hsb : s.dragStartBound = some startBound)
    (hfind : s.faceHandles.find? (fun hh => decide (hh.faceName = face)) = some handle) :
    s.UpdateDrag (some intersection) =
      ((SectionBox.SyncBoxFromBounds
          { s with bounds := (s.bounds.set face
              (clampedValue s.bounds handle startPoint intersection startBound))
          }).UpdateVisuals).UpdatePlanes := by
  unfold SectionBox.UpdateDrag
  rw [if_neg (by simp [hdrag, hface])]
  rw [hface, hsp, hsb]
  dsimp only
  rw [hfind]
  rfl

/-! ### Operation-level lemmas -/

@[simp] lemma StartDrag_enabled (s : SectionBox) (f : Face) (p cd : Vector3) :
    (s.StartDrag f p cd).enabled = s.enabled := rfl

@[simp] lemma EndDrag_enabled (s : SectionBox) :
    (s.EndDrag).enabled = s.enabled := by
  unfold SectionBox.EndDrag; cases s.activeFace <;> rfl

@[simp] lemma EndDrag_isDragging (s : SectionBox) :
    (s.EndDrag).isDragging = false := by
  unfold SectionBox.EndDrag; cases s.activeFace <;> rfl

@[simp] lemma EndDrag_activeFace (s : SectionBox) :
    (s.EndDrag).activeFace = none := by
  unfold SectionBox.EndDrag; cases s.activeFace <;> rfl

@[simp] lemma EndDrag_dragStartPoint (s : SectionBox) :
    (s.EndDrag).dragStartPoint = none := by
  unfold SectionBox.EndDrag; cases s.activeFace <;> rfl

@[simp] lemma EndDrag_dragPlane (s : SectionBox) :
    (s.EndDrag).dragPlane = none := by
  unfold SectionBox.EndDrag; cases s.activeFace <;> rfl

@[simp] lemma EndDrag_dragStartBound (s : SectionBox) :
    (s.EndDrag).dragStartBound = none := by
  unfold SectionBox.EndDrag; cases s.activeFace <;> rfl

@[simp] lemma UpdateDrag_enabled (s : SectionBox) (hit : Option Vector3) :
    (s.UpdateDrag hit).enabled = s.enabled := by
  unfold SectionBox.UpdateDrag
  repeat' split
  all_goals simp

@[simp] lemma Dispose_enabled (s : SectionBox) :
    (s.Dispose).enabled = s.enabled := by
  unfold SectionBox.Dispose; simp

@[simp] lemma Enable_enabled (s : SectionBox) (b : Bool) :
    (s.Enable b).enabled = b := by
  unfold SectionBox.Enable; split <;> simp

@[simp] lemma EnableSectionBox_enabled (s : SectionBox) (b : Bool) :
    (s.EnableSectionBox b).enabled = b := by
  unfold SectionBox.EnableSectionBox; simp

lemma Enable_false_bounds (s : SectionBox) :
    (s.Enable false).bounds = s.bounds := by
  unfold SectionBox.Enable; simp

lemma Enable_false_renderer (s : SectionBox) :
    (s.Enable false).renderer
      = { s.renderer with clippingPlanes := ClipState.empty } := by
  unfold SectionBox.Enable; simp

lemma Enable_false_planes (s : SectionBox) :
    (s.Enable false).planes = s.planes := by
  unfold SectionBox.Enable; simp

lemma Enable_false_faceHandles (s : SectionBox) :
    (s.Enable false).faceHandles
      = s.faceHandles.map (fun h => { h with visible := false }) := by
  unfold SectionBox.Enable; simp

lemma Enable_false_edgesHelper (s : SectionBox) :
    (s.Enable false).edgesHelper
      = s.edgesHelper.map (fun e => { e with visible := false }) := by
  unfold SectionBox.Enable; simp

lemma Enable_false_isDragging (s : SectionBox) :
    (s.Enable false).isDragging = false := by
  unfold SectionBox.Enable; simp

lemma Enable_false_activeFace (s : SectionBox) :
    (s.Enable false).activeFace = none := by
  unfold SectionBox.Enable; simp

lemma Enable_false_dragStartPoint (s : SectionBox) :
    (s.Enable false).dragStartPoint = s.dragStartPoint := by
  unfold SectionBox.Enable; simp

lemma Enable_false_dragPlane (s : SectionBox) :
    (s.Enable false).dragPlane = s.dragPlane := by
  unfold SectionBox.Enable; simp

lemma Enable_false_dragStartBound (s : SectionBox) :
    (s.Enable false).dragStartBound = s.dragStartBound := by
  unfold SectionBox.Enable; simp

lemma Enable_false_originalRender (s : SectionBox) :
    (s.Enable false).originalRender = none := by
  unfold SectionBox.Enable
  simp only [Bool.false_eq_true, if_false]
  unfold SectionBox.UnhookRender
  cases h : s.originalRender <;> simp [h]

lemma Enable_false_viewerRender_of_some (s : SectionBox) (r : RenderEntry)
    (h : s.originalRender = some r) :
    (s.Enable false).viewerRender = r := by
  unfold SectionBox.Enable
  simp only [Bool.false_eq_true, if_false]
  unfold SectionBox.UnhookRender
  simp [h]

lemma Enable_true_viewerRender_of_none (s : SectionBox)
    (h : s.originalRender = none) :
    (s.Enable true).viewerRender = RenderEntry.hooked s.viewerRender := by
  unfold SectionBox.Enable
  simp only [if_true]
  unfold SectionBox.HookRender
  simp [h]

lemma Enable_true_originalRender_of_none (s : SectionBox)
    (h : s.originalRender = none) :
    (s.Enable true).originalRender = some s.viewerRender := by
  unfold SectionBox.Enable
  simp only [if_true]
  unfold SectionBox.HookRender
  simp [h]

lemma Enable_true_viewerRender_of_some (s : SectionBox) (r : RenderEntry)
    (h : s.originalRender = some r) :
    (s.Enable true).viewerRender = s.viewerRender := by
  unfold SectionBox.Enable
  simp only [if_true]
  unfold SectionBox.HookRender
  simp [h]

lemma Enable_true_originalRender_of_some (s : SectionBox) (r : RenderEntry)
    (h : s.originalRender = some r) :
    (s.Enable true).originalRender = some r := by
  unfold SectionBox.Enable
  simp only [if_true]
  unfold SectionBox.HookRender
  simp [h]

lemma Enable_true_edgesHelper_isSome (s : SectionBox) :
    ((s.Enable true).edgesHelper).isSome = true := by
  unfold SectionBox.Enable
  simp [CreateVisuals_edgesHelper_isSome]

@[simp] lemma EnableSectionBox_eq (s : SectionBox) (b : Bool) :
    s.EnableSectionBox b = SectionBox.Enable { s with enabled := b } b := rfl

lemma OnMouseDown_enabled (s : SectionBox) (cd : Vector3)
    (hit : Option (Face × Vector3)) (btn : ℕ) :
    ((s.OnMouseDown cd hit btn).1).enabled = s.enabled := by
  unfold SectionBox.OnMouseDown
  repeat' split
  all_goals simp

lemma OnMouseMove_enabled (s : SectionBox) (dh : Option Vector3)
    (hh : Option Face) :
    ((s.OnMouseMove dh hh).1).enabled = s.enabled := by
  unfold SectionBox.OnMouseMove
  repeat' split
  all_goals simp

lemma OnMouseUp_enabled (s : SectionBox) :
    ((s.OnMouseUp).1).enabled = s.enabled := by
  unfold SectionBox.OnMouseUp
  split <;> simp

lemma FitToBox_enabled (s : SectionBox) (bb : Option Box3) (m : ℚ) :
    (s.FitToBox bb m).enabled = s.enabled := by
  unfold SectionBox.FitToBox
  repeat' split
  all_goals simp

lemma SetBox_enabled (s : SectionBox) (bb : Option Box3) :
    (s.SetBox bb).enabled = s.enabled := by
  unfold SectionBox.SetBox
  repeat' split
  all_goals simp

/-! ### Claim theorems -/

/-- C1: after `UpdateDrag` completes with a ray/drag-plane intersection
(however large the pointer delta), the dragged axis satisfies
`minAxis + 0.01 ≤ maxAxis`: a min-side face is clamped to at most the
opposite max bound minus `0.01`, a max-side face to at least the opposite
min bound plus `0.01`, so the dragged bound never crosses its opposite. -/
theorem UpdateDrag_separates_dragged_axis (s : SectionBox) (face : Face)
    (handle : Handle) (startPoint intersection : Vector3) (startBound : ℚ)
    (hdrag : s.isDragging = true)
    (hface : s.activeFace = some face)
    (hsp : s.dragStartPoint = some startPoint)
    (hsb : s.dragStartBound = some startBound)
    (hfind : s.faceHandles.find? (fun hh => decide (hh.faceName = face)) = some handle)
    (haxis : handle.axis = face.axis)
    (hside : handle.side = face.side) :
    (s.UpdateDrag (some intersection)).bounds.get (Face.ofParts Side.min face.axis) + 1 / 100
      ≤ (s.UpdateDrag (some intersection)).bounds.get (Face.ofParts Side.max face.axis) := by
  rw [UpdateDrag_eq s face handle startPoint intersection startBound
        hdrag hface hsp hsb hfind]
  simp only [UpdatePlanes_bounds, UpdateVisuals_bounds, SyncBoxFromBounds_bounds]
  unfold clampedValue
  rw [haxis, hside]
  cases face <;>
    simp only [Face.axis, Face.side, oppositeKey, Face.ofParts,
      Bounds.get, Bounds.set] <;>
    first
      | exact clamp_min_le _ _
      | exact clamp_max_ge _ _

/-- C1 witness: a drag of the `minX` handle that tries to jump to `x = 5`,
far past `maxX = 1`, still leaves `minX + 0.01 ≤ maxX`. -/
theorem UpdateDrag_separates_dragged_axis_witness :
    (sampleDrag.UpdateDrag (some ⟨5, 1 / 2, 1 / 2⟩)).bounds.get
        (Face.ofParts Side.min (Face.axis Face.minX)) + 1 / 100
      ≤ (sampleDrag.UpdateDrag (some ⟨5, 1 / 2, 1 / 2⟩)).bounds.get
        (Face.ofParts Side.max (Face.axis Face.minX)) :=
  UpdateDrag_separates_dragged_axis sampleDrag Face.minX
    (mkSampleHandle .minX ⟨-1, 0, 0⟩ .x .min handleActiveColor)
    ⟨0, 1 / 2, 1 / 2⟩ ⟨5, 1 / 2, 1 / 2⟩ 0 rfl rfl rfl rfl rfl rfl rfl

/-- C9: a pointer move during an active drag whose ray misses the drag plane
leaves the whole state — bounds, box, planes, drag session, visuals —
exactly unchanged. -/
theorem UpdateDrag_miss_is_noop (s : SectionBox) : s.UpdateDrag none = s := by
  unfold SectionBox.UpdateDrag
  split <;> rfl

/-- C10: a successful drag update writes only the bound keyed by the active
face: every other bound scalar and the enabled flag are unchanged, and the
derived box is resynced so `box.min = (minX, minY, minZ)` and
`box.max = (maxX, maxY, maxZ)` afterwards. -/
theorem UpdateDrag_frame (s : SectionBox) (face : Face) (handle : Handle)
    (startPoint intersection : Vector3) (startBound : ℚ)
    (hdrag : s.isDragging = true)
    (hface : s.activeFace = some face)
    (hsp : s.dragStartPoint = some startPoint)
    (hsb : s.dragStartBound = some startBound)
    (hfind : s.faceHandles.find? (fun hh => decide (hh.faceName = face)) = some handle) :
    (∀ g : Face, g ≠ face →
      (s.UpdateDrag (some intersection)).bounds.get g = s.bounds.get g) ∧
    (s.UpdateDrag (some intersection)).enabled = s.enabled ∧
    (s.UpdateDrag (some intersection)).box
      = boundsBox ((s.UpdateDrag (some intersection)).bounds) := by
  rw [UpdateDrag_eq s face handle startPoint intersection startBound
        hdrag hface hsp hsb hfind]
  refine ⟨?_, by simp, ?_⟩
  · intro g hg
    simp only [UpdatePlanes_bounds, UpdateVisuals_bounds, SyncBoxFromBounds_bounds]
    exact Bounds.get_set_ne _ _ _ _ hg
  · simp

/-- C10 witness: in the sample `minX` drag, `maxX`, `minY` and the enabled
flag survive the update and the box is in sync with the bounds. -/
theorem UpdateDrag_frame_witness :
    (sampleDrag.UpdateDrag (some ⟨5, 1 / 2, 1 / 2⟩)).bounds.get Face.maxX
        = sampleDrag.bounds.get Face.maxX ∧
    (sampleDrag.UpdateDrag (some ⟨5, 1 / 2, 1 / 2⟩)).bounds.get Face.minY
        = sampleDrag.bounds.get Face.minY ∧
    (sampleDrag.UpdateDrag (some ⟨5, 1 / 2, 1 / 2⟩)).enabled = sampleDrag.enabled ∧
    (sampleDrag.UpdateDrag (some ⟨5, 1 / 2, 1 / 2⟩)).box
      = boundsBox ((sampleDrag.UpdateDrag (some ⟨5, 1 / 2, 1 / 2⟩)).bounds) := by
  have h := UpdateDrag_frame sampleDrag Face.minX
    (mkSampleHandle .minX ⟨-1, 0, 0⟩ .x .min handleActiveColor)
    ⟨0, 1 / 2, 1 / 2⟩ ⟨5, 1 / 2, 1 / 2⟩ 0 rfl rfl rfl rfl rfl
  exact ⟨h.1 Face.maxX (by decide), h.1 Face.minY (by decide), h.2.1, h.2.2⟩

lemma effectiveClipPlanes_of_empty (s : SectionBox)
    (h : s.renderer.clippingPlanes = ClipState.empty) :
    effectiveClipPlanes s = [] := by
  unfold effectiveClipPlanes; rw [h]

lemma map_visible_const (l : List Handle) :
    ((l.map (fun h => { h with visible := false })).map Handle.visible)
      = List.replicate l.length false := by
  induction l with
  | nil => rfl
  | cons a t ih => simp_all [List.replicate_succ]

/-- C2: while enabled and with the box synced from the bounds, `UpdatePlanes`
produces exactly six planes, one pair per axis, with components
`(+1,0,0,-min.x)`, `(-1,0,0,+max.x)`, `(0,+1,0,-min.y)`, `(0,-1,0,+max.y)`,
`(0,0,+1,-min.z)`, `(0,0,-1,+max.z)`; each plane evaluates to `0` at any
point on its own box face and every plane evaluates to `> 0` at any point
strictly inside the box. -/
theorem UpdatePlanes_derives_six_planes (s : SectionBox) (p : Vector3)
    (hen : s.enabled = true)
    (hbox : s.box = boundsBox s.bounds) :
    ((s.UpdatePlanes).planes =
      [ ⟨⟨1, 0, 0⟩, -s.bounds.minX⟩, ⟨⟨-1, 0, 0⟩, s.bounds.maxX⟩,
        ⟨⟨0, 1, 0⟩, -s.bounds.minY⟩, ⟨⟨0, -1, 0⟩, s.bounds.maxY⟩,
        ⟨⟨0, 0, 1⟩, -s.bounds.minZ⟩, ⟨⟨0, 0, -1⟩, s.bounds.maxZ⟩ ]) ∧
    ((s.UpdatePlanes).planes.length = 6) ∧
    (p.x = s.bounds.minX → planeEval ⟨⟨1, 0, 0⟩, -s.bounds.minX⟩ p = 0) ∧
    (p.x = s.bounds.maxX → planeEval ⟨⟨-1, 0, 0⟩, s.bounds.maxX⟩ p = 0) ∧
    (p.y = s.bounds.minY → planeEval ⟨⟨0, 1, 0⟩, -s.bounds.minY⟩ p = 0) ∧
    (p.y = s.bounds.maxY → planeEval ⟨⟨0, -1, 0⟩, s.bounds.maxY⟩ p = 0) ∧
    (p.z = s.bounds.minZ → planeEval ⟨⟨0, 0, 1⟩, -s.bounds.minZ⟩ p = 0) ∧
    (p.z = s.bounds.maxZ → planeEval ⟨⟨0, 0, -1⟩, s.bounds.maxZ⟩ p = 0) ∧
    (strictlyInside (boundsBox s.bounds) p →
      ∀ pl ∈ (s.UpdatePlanes).planes, 0 < planeEval pl p) := by
  have hp : (s.UpdatePlanes).planes =
      [ ⟨⟨1, 0, 0⟩, -s.bounds.minX⟩, ⟨⟨-1, 0, 0⟩, s.bounds.maxX⟩,
        ⟨⟨0, 1, 0⟩, -s.bounds.minY⟩, ⟨⟨0, -1, 0⟩, s.bounds.maxY⟩,
        ⟨⟨0, 0, 1⟩, -s.bounds.minZ⟩, ⟨⟨0, 0, -1⟩, s.bounds.maxZ⟩ ] := by
    unfold SectionBox.UpdatePlanes
    rw [if_neg (by simp [hen]), hbox]
    rfl
  refine ⟨hp, by rw [hp]; rfl, ?_, ?_, ?_, ?_, ?_, ?_, ?_⟩
  · intro h; simp [planeEval, Vector3.dot, h]
  · intro h; simp [planeEval, Vector3.dot, h]
  · intro h; simp [planeEval, Vector3.dot, h]
  · intro h; simp [planeEval, Vector3.dot, h]
  · intro h; simp [planeEval, Vector3.dot, h]
  · intro h; simp [planeEval, Vector3.dot, h]
  · intro hin pl hpl
    obtain ⟨h1, h2, h3, h4, h5, h6⟩ := hin
    simp only [boundsBox] at h1 h2 h3 h4 h5 h6
    rw [hp] at hpl
    simp only [List.mem_cons, List.not_mem_nil, or_false] at hpl
    rcases hpl with rfl | rfl | rfl | rfl | rfl | rfl <;>
      (simp [planeEval, Vector3.dot]; linarith)

/-- C2 witness: over the unit bounds, the derived plane list has six entries,
the `+X` plane vanishes on the `x = minX` face and is positive at the
interior point `(1/2, 1/2, 1/2)`. -/
theorem UpdatePlanes_derives_six_planes_witness :
    (sampleEnabled.UpdatePlanes).planes.length = 6 ∧
    planeEval ⟨⟨1, 0, 0⟩, -sampleEnabled.bounds.minX⟩ ⟨0, 1 / 2, 1 / 2⟩ = 0 ∧
    0 < planeEval ⟨⟨1, 0, 0⟩, -sampleEnabled.bounds.minX⟩ ⟨1 / 2, 1 / 2, 1 / 2⟩ := by
  have h0 := UpdatePlanes_derives_six_planes sampleEnabled ⟨0, 1 / 2, 1 / 2⟩ rfl rfl
  have h1 := UpdatePlanes_derives_six_planes sampleEnabled ⟨1 / 2, 1 / 2, 1 / 2⟩ rfl rfl
  refine ⟨h0.2.1, h0.2.2.1 rfl, ?_⟩
  have hin : strictlyInside (boundsBox sampleEnabled.bounds) ⟨1 / 2, 1 / 2, 1 / 2⟩ := by
    norm_num [strictlyInside, boundsBox, sampleEnabled]
  refine h1.2.2.2.2.2.2.2.2 hin _ ?_
  rw [h1.1]
  exact List.mem_cons_self _ _

/-- C3: disabling the section box (via `EnableSectionBox false` or the legacy
`Enable false`) leaves the host renderer with an empty clip-plane list, makes
every overlay object (the six handles and the wireframe edges object)
invisible, and leaves all six bound scalars unchanged. -/
theorem disable_clears_clipping_hides_visuals (s : SectionBox) :
    effectiveClipPlanes (s.EnableSectionBox false) = [] ∧
    ((s.EnableSectionBox false).faceHandles.map Handle.visible)
      = List.replicate s.faceHandles.length false ∧
    ((s.EnableSectionBox false).edgesHelper.map Edges.visible)
      = s.edgesHelper.map (fun _ => false) ∧
    (s.EnableSectionBox false).bounds = s.bounds ∧
    effectiveClipPlanes (s.Enable false) = [] ∧
    (s.Enable false).bounds = s.bounds := by
  refine ⟨?_, ?_, ?_, ?_, ?_, Enable_false_bounds s⟩
  · exact effectiveClipPlanes_of_empty _ (by rw [EnableSectionBox_eq, Enable_false_renderer])
  · rw [EnableSectionBox_eq, Enable_false_faceHandles]
    exact map_visible_const s.faceHandles
  · rw [EnableSectionBox_eq, Enable_false_edgesHelper]
    cases s.edgesHelper <;> rfl
  · rw [EnableSectionBox_eq, Enable_false_bounds]
  · exact effectiveClipPlanes_of_empty _ (by rw [Enable_false_renderer])

/-- C4: with no hook installed yet, enabling twice installs exactly one layer
of render-hook wrapping (the second enable does not nest another hook), the
saved entry point is the pre-enable one, and disabling restores the original
draw entry point exactly while the overlay objects remain allocated but
hidden. -/
theorem enable_twice_installs_single_hook (s : SectionBox)
    (horig : s.originalRender = none) :
    ((s.EnableSectionBox true).viewerRender = RenderEntry.hooked s.viewerRender) ∧
    (((s.EnableSectionBox true).EnableSectionBox true).viewerRender
        = (s.EnableSectionBox true).viewerRender) ∧
    (((s.EnableSectionBox true).EnableSectionBox true).originalRender
        = some s.viewerRender) ∧
    ((((s.EnableSectionBox true).EnableSectionBox true).EnableSectionBox false).viewerRender
        = s.viewerRender) ∧
    ((((s.EnableSectionBox true).EnableSectionBox true).EnableSectionBox false).originalRender
        = none) ∧
    ((((s.EnableSectionBox true).EnableSectionBox true).EnableSectionBox false).faceHandles.length
        = ((s.EnableSectionBox true).EnableSectionBox true).faceHandles.length) ∧
    ((((s.EnableSectionBox true).EnableSectionBox true).EnableSectionBox false).faceHandles.map Handle.visible
        = List.replicate (((s.EnableSectionBox true).EnableSectionBox true).faceHandles.length) false) ∧
    ((((s.EnableSectionBox true).EnableSectionBox true).EnableSectionBox false).edgesHelper.isSome
        = ((s.EnableSectionBox true).EnableSectionBox true).edgesHelper.isSome) := by
  have h1v : (s.EnableSectionBox true).viewerRender = RenderEntry.hooked s.viewerRender :=
    Enable_true_viewerRender_of_none _ horig
  have h1o : (s.EnableSectionBox true).originalRender = some s.viewerRender :=
    Enable_true_originalRender_of_none _ horig
  have h2v : ((s.EnableSectionBox true).EnableSectionBox true).viewerRender
      = (s.EnableSectionBox true).viewerRender :=
    Enable_true_viewerRender_of_some _ _ h1o
  have h2o : ((s.EnableSectionBox true).EnableSectionBox true).originalRender
      = some s.viewerRender :=
    Enable_true_originalRender_of_some _ _ h1o
  refine ⟨h1v, h2v, h2o, ?_, ?_, ?_, ?_, ?_⟩
  · exact Enable_false_viewerRender_of_some _ _ h2o
  · exact Enable_false_originalRender _
  · rw [EnableSectionBox_eq, Enable_false_faceHandles]
    exact List.length_map _ _
  · rw [EnableSectionBox_eq, Enable_false_faceHandles]
    exact map_visible_const _
  · rw [EnableSectionBox_eq, Enable_false_edgesHelper]
    simp

/-- C4 witness: starting from the freshly constructed state, the second
enable installs no further wrapping and disabling restores the host's own
draw entry point. -/
theorem enable_twice_installs_single_hook_witness :
    (((sampleState.EnableSectionBox true).EnableSectionBox true).viewerRender
        = (sampleState.EnableSectionBox true).viewerRender) ∧
    ((((sampleState.EnableSectionBox true).EnableSectionBox true).EnableSectionBox false).viewerRender
        = sampleState.viewerRender) := by
  have h := enable_twice_installs_single_hook sampleState rfl
  exact ⟨h.2.1, h.2.2.2.1⟩

/-- C5 counterexample: a zero-volume (degenerate) box with `min = max =
(5,5,5)` is NOT `isEmpty` in the host library's sense (`isEmpty` requires
`max < min` on some axis), so `FitToBox` is not a no-op on it: starting from
the unit bounds it rewrites every bound. -/
theorem FitToBox_zero_volume_not_noop :
    (sampleState.FitToBox (some ⟨⟨5, 5, 5⟩, ⟨5, 5, 5⟩⟩) 0).bounds
      ≠ sampleState.bounds := by
  have hne : ¬(Box3.isEmpty ⟨⟨5, 5, 5⟩, ⟨5, 5, 5⟩⟩) := by
    norm_num [Box3.isEmpty]
  unfold SectionBox.FitToBox
  dsimp only
  rw [if_neg hne]
  simp only [UpdatePlanes_bounds, UpdateVisuals_bounds, SyncBoxFromBounds_bounds]
  simp only [Box3.getSize, if_neg hne]
  norm_num [sampleState, Bounds.mk.injEq]

/-- C5 amended: `FitToBox` is a no-op exactly when the argument is null or
`isEmpty` in the host-library sense (some `max < min`); a zero-volume box
with `min = max` passes the check and is processed.  For every box passing
the check, `min = box.min - size * m` and `max = box.max + size * m` per
axis, and margin factor `0` copies the box bounds exactly. -/
theorem FitToBox_noop_iff_null_or_inverted (s : SectionBox) (bb : Box3) (m : ℚ) :
    (s.FitToBox none m = s) ∧
    (bb.isEmpty → s.FitToBox (some bb) m = s) ∧
    (¬bb.isEmpty →
      (s.FitToBox (some bb) m).bounds =
        ⟨bb.min.x - (bb.max.x - bb.min.x) * m, bb.max.x + (bb.max.x - bb.min.x) * m,
         bb.min.y - (bb.max.y - bb.min.y) * m, bb.max.y + (bb.max.y - bb.min.y) * m,
         bb.min.z - (bb.max.z - bb.min.z) * m, bb.max.z + (bb.max.z - bb.min.z) * m⟩) ∧
    (¬bb.isEmpty →
      (s.FitToBox (some bb) 0).bounds =
        ⟨bb.min.x, bb.max.x, bb.min.y, bb.max.y, bb.min.z, bb.max.z⟩) := by
  refine ⟨rfl, ?_, ?_, ?_⟩
  · intro h
    unfold SectionBox.FitToBox
    dsimp only
    rw [if_pos h]
  · intro h
    unfold SectionBox.FitToBox
    dsimp only
    rw [if_neg h]
    simp only [UpdatePlanes_bounds, UpdateVisuals_bounds, SyncBoxFromBounds_bounds]
    simp [Box3.getSize, h]
  · intro h
    unfold SectionBox.FitToBox
    dsimp only
    rw [if_neg h]
    simp only [UpdatePlanes_bounds, UpdateVisuals_bounds, SyncBoxFromBounds_bounds]
    simp [Box3.getSize, h]

/-- C5 witness: the spec's own worked example — fitting to the box
`(-2,-2,-2)..(2,2,2)` with margin factor `0.1` yields
`min = -2 - 4·0.1 = -2.4`, `max = 2 + 4·0.1 = 2.4` on every axis. -/
theorem FitToBox_noop_iff_null_or_inverted_witness :
    (sampleState.FitToBox (some ⟨⟨-2, -2, -2⟩, ⟨2, 2, 2⟩⟩) (1 / 10)).bounds =
      ⟨(-2 : ℚ) - (2 - (-2)) * (1 / 10), 2 + (2 - (-2)) * (1 / 10),
       (-2 : ℚ) - (2 - (-2)) * (1 / 10), 2 + (2 - (-2)) * (1 / 10),
       (-2 : ℚ) - (2 - (-2)) * (1 / 10), 2 + (2 - (-2)) * (1 / 10)⟩ :=
  (FitToBox_noop_iff_null_or_inverted sampleState ⟨⟨-2, -2, -2⟩, ⟨2, 2, 2⟩⟩
    (1 / 10)).2.2.1 (by norm_num [Box3.isEmpty])

/-- C6: `SetSectionBox b` followed by `GetSectionBox` returns `b`'s six
scalars unchanged (even when a min exceeds the corresponding max — no
validation happens), and the enabled flag is unaffected by `SetSectionBox`
and by every other exposed operation; it changes only through
`EnableSectionBox` (and the legacy `Enable` it delegates to). -/
theorem SetSectionBox_roundtrip_enabled_stable (s : SectionBox) (b : Bounds)
    (bb : Option Box3) (m : ℚ) (cd : Vector3) (hit : Option (Face × Vector3))
    (btn : ℕ) (dh : Option Vector3) (hh : Option Face) (e : Bool) :
    ((s.SetSectionBox b).GetSectionBox
      = ⟨s.enabled, b.minX, b.maxX, b.minY, b.maxY, b.minZ, b.maxZ⟩) ∧
    ((s.SetSectionBox b).enabled = s.enabled) ∧
    ((s.FitToBox bb m).enabled = s.enabled) ∧
    (((s.OnMouseDown cd hit btn).1).enabled = s.enabled) ∧
    (((s.OnMouseMove dh hh).1).enabled = s.enabled) ∧
    (((s.OnMouseUp).1).enabled = s.enabled) ∧
    ((s.SetBox bb).enabled = s.enabled) ∧
    ((s.Dispose).enabled = s.enabled) ∧
    ((s.EnableSectionBox e).enabled = e) := by
  refine ⟨?_, ?_, FitToBox_enabled s bb m, OnMouseDown_enabled s cd hit btn,
    OnMouseMove_enabled s dh hh, OnMouseUp_enabled s, SetBox_enabled s bb,
    Dispose_enabled s, EnableSectionBox_enabled s e⟩
  · unfold SectionBox.SetSectionBox SectionBox.GetSectionBox
    simp
  · unfold SectionBox.SetSectionBox
    simp

lemma EndDrag_faceHandles_of_active (s : SectionBox) (face : Face)
    (hface : s.activeFace = some face) :
    (s.EndDrag).faceHandles = setHandleColor s.faceHandles face handleColor := by
  unfold SectionBox.EndDrag
  rw [hface]

/-- C7 counterexample: disabling the section box mid-drag does NOT discard
the whole drag session, nor reset the active handle's color: in the sample
`minX` drag, `dragStartPoint`, `dragPlane` and `dragStartBound` all survive
`EnableSectionBox false`, and the `minX` handle still carries the active
color (which differs from the default color). -/
theorem disable_mid_drag_retains_session :
    ((sampleDrag.EnableSectionBox false).dragStartPoint = some ⟨0, 1 / 2, 1 / 2⟩) ∧
    ((sampleDrag.EnableSectionBox false).dragPlane = some ⟨⟨0, 0, 1⟩, -(1 / 2)⟩) ∧
    ((sampleDrag.EnableSectionBox false).dragStartBound = some 0) ∧
    (((sampleDrag.EnableSectionBox false).faceHandles.map Handle.color)
      = sampleDragHandles.map Handle.color) ∧
    ((sampleDragHandles.map Handle.color).head? = some handleActiveColor) ∧
    handleActiveColor ≠ handleColor := by
  refine ⟨?_, ?_, ?_, ?_, rfl, by decide⟩
  · rw [EnableSectionBox_eq, Enable_false_dragStartPoint]; rfl
  · rw [EnableSectionBox_eq, Enable_false_dragPlane]; rfl
  · rw [EnableSectionBox_eq, Enable_false_dragStartBound]; rfl
  · rw [EnableSectionBox_eq, Enable_false_faceHandles]
    exact map_color_map_visible _ _

/-- C7 amended: on button release (`OnMouseUp` during a drag) the active
handle's color is reset to the default and all five drag-session fields are
cleared; on disable mid-drag only `isDragging` and `activeFace` are cleared
(so no stale active-face reference remains), while `dragStartPoint`,
`dragPlane`, `dragStartBound` and the handle colors are left as they were. -/
theorem drag_to_idle_transition (s : SectionBox) (face : Face) (handle : Handle)
    (hdrag : s.isDragging = true)
    (hface : s.activeFace = some face)
    (hfind : s.faceHandles.find? (fun hh => decide (hh.faceName = face)) = some handle) :
    (((s.OnMouseUp).1).isDragging = false) ∧
    (((s.OnMouseUp).1).activeFace = none) ∧
    (((s.OnMouseUp).1).dragStartPoint = none) ∧
    (((s.OnMouseUp).1).dragPlane = none) ∧
    (((s.OnMouseUp).1).dragStartBound = none) ∧
    (((s.OnMouseUp).1).faceHandles.find? (fun hh => decide (hh.faceName = face))
        = some { handle with color := handleColor }) ∧
    ((s.EnableSectionBox false).isDragging = false) ∧
    ((s.EnableSectionBox false).activeFace = none) ∧
    ((s.EnableSectionBox false).dragStartPoint = s.dragStartPoint) ∧
    ((s.EnableSectionBox false).dragPlane = s.dragPlane) ∧
    ((s.EnableSectionBox false).dragStartBound = s.dragStartBound) ∧
    ((s.EnableSectionBox false).faceHandles.map Handle.color
        = s.faceHandles.map Handle.color) := by
  have hup : (s.OnMouseUp).1 = s.EndDrag := by
    unfold SectionBox.OnMouseUp
    rw [if_pos hdrag]
  rw [hup]
  refine ⟨by simp, by simp, by simp, by simp, by simp, ?_, ?_, ?_, ?_, ?_, ?_, ?_⟩
  · rw [EndDrag_faceHandles_of_active s face hface]
    exact find?_setHandleColor s.faceHandles face handleColor handle hfind
  · rw [EnableSectionBox_eq]; exact Enable_false_isDragging _
  · rw [EnableSectionBox_eq]; exact Enable_false_activeFace _
  · rw [EnableSectionBox_eq, Enable_false_dragStartPoint]
  · rw [EnableSectionBox_eq, Enable_false_dragPlane]
  · rw [EnableSectionBox_eq, Enable_false_dragStartBound]
  · rw [EnableSectionBox_eq, Enable_false_faceHandles]
    exact map_color_map_visible _ _

/-- C7 amended witness: in the sample `minX` drag, releasing the button
clears the start point and repaints the `minX` handle with the default
color, while disabling instead keeps the start point. -/
theorem drag_to_idle_transition_witness :
    (((sampleDrag.OnMouseUp).1).dragStartPoint = none) ∧
    (((sampleDrag.OnMouseUp).1).faceHandles.find?
        (fun hh => decide (hh.faceName = Face.minX))
      = some { mkSampleHandle .minX ⟨-1, 0, 0⟩ .x .min handleActiveColor with
               color := handleColor }) ∧
    ((sampleDrag.EnableSectionBox false).dragStartPoint = sampleDrag.dragStartPoint) := by
  have h := drag_to_idle_transition sampleDrag Face.minX
    (mkSampleHandle .minX ⟨-1, 0, 0⟩ .x .min handleActiveColor) rfl rfl rfl
  exact ⟨h.2.2.1, h.2.2.2.2.2.1, h.2.2.2.2.2.2.2.2.1⟩

/-- C8: each mouse handler reports the input as consumed exactly when the
spec says — `OnMouseDown` only for a primary-button press that hits a handle
while enabled, `OnMouseMove` only during an active drag (hover returns
false), `OnMouseUp` only when a drag was active — and after disabling
mid-drag a subsequent `OnMouseUp` is a total no-op returning `false`. -/
theorem mouse_handlers_consume_iff (s : SectionBox) (cd : Vector3)
    (hit : Option (Face × Vector3)) (btn : ℕ) (dh : Option Vector3)
    (hh : Option Face) :
    ((s.OnMouseDown cd hit btn).2 = true ↔
      (s.enabled = true ∧ s.faceHandles.length ≠ 0 ∧ btn = 1 ∧ hit ≠ none)) ∧
    ((s.OnMouseMove dh hh).2 = true ↔
      (s.enabled = true ∧ s.faceHandles.length ≠ 0 ∧ s.isDragging = true)) ∧
    ((s.OnMouseUp).2 = true ↔ s.isDragging = true) ∧
    ((s.EnableSectionBox false).OnMouseUp = ((s.EnableSectionBox false), false)) := by
  have hdis : (s.EnableSectionBox false).isDragging = false := by
    rw [EnableSectionBox_eq]; exact Enable_false_isDragging _
  refine ⟨?_, ?_, ?_, ?_⟩
  · unfold SectionBox.OnMouseDown
    split_ifs with hcond
    · simp only [Bool.false_eq_true, false_iff, not_and, not_not, ne_eq]
      intro h1 h2 h3
      rcases hcond with hc | hc | hc
      · rw [h1] at hc; cases hc
      · exact absurd hc h2
      · exact absurd h3 hc
    · rw [not_or, not_or] at hcond
      obtain ⟨he, hl, hb⟩ := hcond
      rw [Bool.not_eq_false] at he
      rw [not_not] at hb
      cases hit with
      | none => simp
      | some fp => simp [he, hl, hb]
  · unfold SectionBox.OnMouseMove
    split_ifs with hcond hdrag
    · simp only [Bool.false_eq_true, false_iff, not_and, ne_eq]
      intro h1 h2
      rcases hcond with hc | hc
      · rw [h1] at hc; cases hc
      · exact absurd hc h2
    · rw [not_or] at hcond
      obtain ⟨he, hl⟩ := hcond
      rw [Bool.not_eq_false] at he
      simp [he, hl, hdrag]
    · rw [Bool.not_eq_true] at hdrag
      cases hh <;> simp [hdrag]
  · unfold SectionBox.OnMouseUp
    split_ifs with hdrag
    · simp [hdrag]
    · rw [Bool.not_eq_true] at hdrag
      simp [hdrag]
  · unfold SectionBox.OnMouseUp
    rw [if_neg (by rw [hdis]; exact Bool.false_ne_true)]

/-- C3 witness: on the enabled sample state, disabling indeed empties the
effective clip-plane list and keeps the bounds. -/
theorem disable_clears_clipping_hides_visuals_witness :
    effectiveClipPlanes (sampleEnabled.EnableSectionBox false) = [] ∧
    (sampleEnabled.EnableSectionBox false).bounds = sampleEnabled.bounds := by
  have h := disable_clears_clipping_hides_visuals sampleEnabled
  exact ⟨h.1, h.2.2.2.1⟩

/-- C6 witness: a deliberately inverted bounds record (`minX = 3 > maxX = 2`)
round-trips through `SetSectionBox`/`GetSectionBox` unvalidated and
unchanged, with the enabled flag still `true`. -/
theorem SetSectionBox_roundtrip_enabled_stable_witness :
    (sampleEnabled.SetSectionBox ⟨3, 2, 0, 1, 0, 1⟩).GetSectionBox
      = ⟨true, 3, 2, 0, 1, 0, 1⟩ := by
  have h := SetSectionBox_roundtrip_enabled_stable sampleEnabled ⟨3, 2, 0, 1, 0, 1⟩
    none 0 ⟨0, 0, 0⟩ none 1 none none true
  exact h.1

/-- C8 witness: after disabling mid-drag, `OnMouseUp` on the sample drag
state is a no-op that reports the event as not consumed. -/
theorem mouse_handlers_consume_iff_witness :
    (sampleDrag.EnableSectionBox false).OnMouseUp
      = ((sampleDrag.EnableSectionBox false), false) :=
  (mouse_handlers_consume_iff sampleDrag ⟨0, 0, 0⟩ none 1 none none).2.2.2

end OV3D
